import Mathlib

/-!
Verification of the space-hulk-tracker state engine (src/app.js, second
application version: the one with warning chimes, the continuous alarm and
the generalized visibility map; its `startTimer` is at lines 598-631).

The JavaScript state object is embedded as the structure `AppState`; each
engine function is translated one-to-one from the source.  DOM rendering,
audio output and the real `setInterval` handles are presentation-layer side
effects: the running tick interval is represented by the `isRunning` flag
(the code keeps `intervalId ≠ null` exactly while `isRunning`), and the
repeating alarm interval by the `alarmRunning` flag.  JavaScript numbers
reached by this state are integers, embedded as `Int`; `parseInt` results
are embedded as `Option Int` with `none` for `NaN`.
-/

/-- One custom tracker, as built by `addCustomTracker` (src/app.js:921-926). -/
structure Tracker where
  id : Int
  name : String
  defaultValue : Int
  value : Int
deriving Repr, DecidableEq

/-- The `state.timer` object (src/app.js:533-542).  `isRunning` stands for
`isRunning`/`intervalId`, `alarmRunning` for `alarmIntervalId ≠ null`. -/
structure TimerState where
  minutes : Int
  seconds : Int
  isRunning : Bool
  defaultMinutes : Int
  alarmRunning : Bool
  oneMinuteChimePlayed : Bool
  thirtySecondChimePlayed : Bool
deriving Repr, DecidableEq

/-- The global `state` object (src/app.js:532-553). `visibility` is the JS
object embedded as an association list (earlier entries shadow later ones;
the code never creates duplicate keys). -/
structure AppState where
  timer : TimerState
  psychicPoints : Int
  cannonPoints : Int
  commandPoints : Int
  customTrackers : List Tracker
  nextTrackerId : Int
  visibility : List (String × Bool)
deriving Repr, DecidableEq

/-- The initial value of `state` (src/app.js:532-553). -/
def initialState : AppState :=
  { timer := { minutes := 3, seconds := 0, isRunning := false, defaultMinutes := 3,
               alarmRunning := false, oneMinuteChimePlayed := false,
               thirtySecondChimePlayed := false }
    psychicPoints := 20
    cannonPoints := 10
    commandPoints := 0
    customTrackers := []
    nextTrackerId := 1
    visibility := [("librarian", true), ("cannon", true), ("command", true)] }

/-- JavaScript association-list lookup (property read on an object). -/
def jsLookup {α : Type} : List (String × α) → String → Option α
  | [], _ => none
  | p :: t, k => if p.1 = k then some p.2 else jsLookup t k

/-- JavaScript property assignment `obj[k] = v`: update the (shadowing)
occurrence in place, or append a fresh key. -/
def jsSetKey {α : Type} : List (String × α) → String → α → List (String × α)
  | [], k, v => [(k, v)]
  | p :: t, k, v => if p.1 = k then (p.1, v) :: t else p :: jsSetKey t k v

/-- JavaScript `delete obj[k]`. -/
def jsDeleteKey {α : Type} (l : List (String × α)) (k : String) : List (String × α) :=
  l.filter (fun p => p.1 != k)

/-- `parseInt(x) || d`: the fallback `d` is taken when `parseInt` gives
`NaN` (`none`) and also when it gives `0`, because `0` is falsy. -/
def parseIntOr (v : Option Int) (d : Int) : Int :=
  match v with
  | none => d
  | some n => if n = 0 then d else n

/-- `String.prototype.trim`, over the characters Lean classifies as
whitespace (the inputs the application handles are ASCII). -/
def jsTrim (s : String) : String :=
  String.mk (((s.data.dropWhile Char.isWhitespace).reverse.dropWhile
      Char.isWhitespace).reverse)

/-- `pauseTimer` (src/app.js:636-644): no-op unless running; otherwise stop
the tick interval and clear the running flag. -/
def pauseTimer (s : AppState) : AppState :=
  if s.timer.isRunning then { s with timer := { s.timer with isRunning := false } } else s

/-- `stopTimer` (src/app.js:649-651): delegates to `pauseTimer`. -/
def stopTimer (s : AppState) : AppState :=
  pauseTimer s

/-- `stopAlarm` (src/app.js:723-734): cancel the repeating alarm interval
(the DOM class removal is presentation only). -/
def stopAlarm (s : AppState) : AppState :=
  { s with timer := { s.timer with alarmRunning := false } }

/-- The alarm replay cadence in milliseconds (src/app.js:717). -/
def alarmIntervalMs : Nat := 2000

/-- `startContinuousAlarm` (src/app.js:707-718): stop any existing alarm,
play once, then repeat every `alarmIntervalMs`. -/
def startContinuousAlarm (s : AppState) : AppState :=
  let s1 := stopAlarm s
  { s1 with timer := { s1.timer with alarmRunning := true } }

/-- `resetTimer` (src/app.js:656-666): pause, silence the alarm, restore the
configured duration and clear both chime flags. -/
def resetTimer (s : AppState) : AppState :=
  let s1 := stopAlarm (pauseTimer s)
  { s1 with
    timer := { s1.timer with
               minutes := s1.timer.defaultMinutes, seconds := 0,
               oneMinuteChimePlayed := false, thirtySecondChimePlayed := false } }

/-- `setTimerMinutes` (src/app.js:672-681).  Clamps
`parseInt(minutes) || 3` into `[1,60]`, stores it as the configured
duration and, when not running, also as the displayed remaining time. -/
def setTimerMinutes (s : AppState) (minutes : Option Int) : AppState :=
  let mins := max 1 (min 60 (parseIntOr minutes 3))
  let s1 := { s with timer := { s.timer with defaultMinutes := mins } }
  if s1.timer.isRunning then s1
  else { s1 with timer := { s1.timer with minutes := mins, seconds := 0 } }

/-- `startTimer` (src/app.js:598-631): no-op if already running, otherwise
set the running flag and install the once-per-second tick. -/
def startTimer (s : AppState) : AppState :=
  if s.timer.isRunning then s else { s with timer := { s.timer with isRunning := true } }

/-- The observable cue events of one tick. -/
structure TickEvents where
  oneMinuteChime : Bool
  thirtySecondChime : Bool
  completed : Bool
deriving Repr, DecidableEq

/-- The chime phase of the tick callback (src/app.js:603-613): milestones
are evaluated on the pre-decrement remaining time and each fires at most
once per run. -/
def tickChimes (t : TimerState) : TimerState × TickEvents :=
  let total := t.minutes * 60 + t.seconds
  if total = 60 ∧ t.oneMinuteChimePlayed = false then
    ({ t with oneMinuteChimePlayed := true },
     { oneMinuteChime := true, thirtySecondChime := false, completed := false })
  else if total = 30 ∧ t.thirtySecondChimePlayed = false then
    ({ t with thirtySecondChimePlayed := true },
     { oneMinuteChime := false, thirtySecondChime := true, completed := false })
  else (t, { oneMinuteChime := false, thirtySecondChime := false, completed := false })

/-- The body of the interval callback installed by `startTimer`
(src/app.js:602-630): chime phase, then decrement or finish. -/
def timerTick (s : AppState) : AppState × TickEvents :=
  let c := tickChimes s.timer
  if c.1.seconds = 0 then
    if c.1.minutes = 0 then
      (startContinuousAlarm (stopTimer { s with timer := c.1 }), { c.2 with completed := true })
    else
      ({ s with timer := { c.1 with minutes := c.1.minutes - 1, seconds := 59 } }, c.2)
  else
    ({ s with timer := { c.1 with seconds := c.1.seconds - 1 } }, c.2)

/-- Drive the engine for `n` seconds: the tick callback fires once per
second while the interval is installed (exactly while `isRunning`), and
stops firing once the interval is cleared.  Also counts how many times the
completion event fired. -/
def runTimer : Nat → AppState → AppState × Nat
  | 0, s => (s, 0)
  | n + 1, s =>
    if s.timer.isRunning then
      let r := timerTick s
      let rest := runTimer n r.1
      (rest.1, (if r.2.completed then 1 else 0) + rest.2)
    else (s, 0)

/-- The `type` argument of `adjustPoints`/`resetPoints`: the three fixed
counter names, a `custom-<id>` reference (an unparseable id, `parseInt`
giving `NaN`, matches no tracker and is covered by an id no tracker has),
or any other string. -/
inductive PointsRef
  | psychic
  | cannon
  | command
  | custom (id : Int)
  | other
deriving Repr, DecidableEq

/-- The mutation `tracker.value = Math.max(0, tracker.value + delta)`
applied to the tracker `find` returns: the first one with the given id. -/
def adjustTracker (id delta : Int) : List Tracker → List Tracker
  | [] => []
  | t :: ts =>
    if t.id = id then { t with value := max 0 (t.value + delta) } :: ts
    else t :: adjustTracker id delta ts

/-- `adjustPoints` (src/app.js:806-845): clamp the addressed counter at 0;
an unmatched reference leaves every counter untouched. -/
def adjustPoints (s : AppState) (ref : PointsRef) (delta : Int) : AppState :=
  match ref with
  | .psychic => { s with psychicPoints := max 0 (s.psychicPoints + delta) }
  | .cannon => { s with cannonPoints := max 0 (s.cannonPoints + delta) }
  | .command => { s with commandPoints := max 0 (s.commandPoints + delta) }
  | .custom id => { s with customTrackers := adjustTracker id delta s.customTrackers }
  | .other => s

/-- Fold a sequence of `adjustPoints` commands over the state. -/
def applyAdjusts (s : AppState) (ops : List (PointsRef × Int)) : AppState :=
  ops.foldl (fun acc p => adjustPoints acc p.1 p.2) s

/-- All counter values of the store are non-negative. -/
abbrev pointsNonneg (s : AppState) : Prop :=
  0 ≤ s.psychicPoints ∧ 0 ≤ s.cannonPoints ∧ 0 ≤ s.commandPoints ∧
    ∀ t ∈ s.customTrackers, 0 ≤ t.value

/-- `addCustomTracker` (src/app.js:909-938).  `nameInput` is the raw text
field value, `defaultInput` the `parseInt` of the default field (`none` for
`NaN`).  An empty trimmed name returns without mutating anything. -/
def addCustomTracker (s : AppState) (nameInput : String) (defaultInput : Option Int) :
    AppState :=
  let name := jsTrim nameInput
  let defaultValue := max 0 (parseIntOr defaultInput 10)
  if name = "" then s
  else
    let tracker : Tracker :=
      { id := s.nextTrackerId, name := name, defaultValue := defaultValue,
        value := defaultValue }
    { s with nextTrackerId := s.nextTrackerId + 1,
             customTrackers := s.customTrackers ++ [tracker],
             visibility := jsSetKey s.visibility (("custom-") ++ toString tracker.id) true }

/-!
The persistence layer (src/app.js:1159-1245).  `localStorage` holds a JSON
string; `JSON.parse` of it is embedded as the value type `JVal` (numbers the
application produces are integers).  The mutable JS `state` object that
`loadState` writes into is dynamically typed, so it is embedded as `JState`
with `JVal` fields for everything `loadState` assigns; the fields `loadState`
never touches (running flag, chime flags, interval handles) keep their typed
form.  DOM updates inside `loadState` are presentation only and are not
modeled, with one exception that is visible in the state: when
`data.customTrackers` is truthy but not an array, the
`state.customTrackers.forEach(...)` call throws, the surrounding
`try`/`catch` swallows the error, and every later restore step is skipped.
-/

/-- A parsed JSON value. -/
inductive JVal
  | jnull
  | jbool (b : Bool)
  | jnum (n : Int)
  | jstr (s : String)
  | jarr (elems : List JVal)
  | jobj (props : List (String × JVal))

/-- JavaScript truthiness of a `JVal`. -/
def truthy : JVal → Bool
  | .jnull => false
  | .jbool b => b
  | .jnum n => n != 0
  | .jstr s => s != ""
  | .jarr _ => true
  | .jobj _ => true

/-- Property read `j.k`: `undefined` (`none`) unless `j` is an object with
the key (the index and `length` properties of strings and arrays are never
read by `loadState`). -/
def getProp (j : JVal) (k : String) : Option JVal :=
  match j with
  | .jobj l => jsLookup l k
  | _ => none

/-- `v ?? d`: nullish coalescing substitutes `d` for `undefined` and `null`
only. -/
def nullishDefault (v : Option JVal) (d : JVal) : JVal :=
  match v with
  | none => d
  | some .jnull => d
  | some x => x

/-- `v || d`: the logical-or fallback taken on any falsy value. -/
def jsOrDefault (v : Option JVal) (d : JVal) : JVal :=
  match v with
  | none => d
  | some x => if truthy x then x else d

/-- The own enumerable properties contributed by `...v` in an object
spread: objects give their entries, arrays and strings indexed entries,
primitives nothing. -/
def spreadProps : JVal → List (String × JVal)
  | .jobj l => l
  | .jarr l => (l.enum).map (fun p => (toString p.1, p.2))
  | .jstr s => (s.data.enum).map (fun p => (toString p.1, JVal.jstr (String.mk [p.2])))
  | _ => []

/-- The object `{ ...a, ...b }`: `b`'s entries override `a`'s.  The
b-entries are appended whole; for keys of `a` the overriding value is
written in place, so shadowed duplicates carry the same mapping a JS object
would. -/
def mergeProps (a b : List (String × JVal)) : List (String × JVal) :=
  a.map (fun p => (p.1, (jsLookup b p.1).getD p.2)) ++ b

/-- `removeProp j k`: the same JSON value with property `k` absent. -/
def removeProp (j : JVal) (k : String) : JVal :=
  match j with
  | .jobj l => .jobj (jsDeleteKey l k)
  | x => x

/-- The mutable JS `state` as `loadState` sees it. -/
@[ext]
structure JState where
  timerMinutes : JVal
  timerSeconds : JVal
  timerDefaultMinutes : JVal
  isRunning : Bool
  alarmRunning : Bool
  oneMinuteChimePlayed : Bool
  thirtySecondChimePlayed : Bool
  psychicPoints : JVal
  cannonPoints : JVal
  commandPoints : JVal
  customTrackers : JVal
  nextTrackerId : JVal
  visibility : List (String × JVal)

/-- The fresh `state` object of a page load (src/app.js:532-553), as the
dynamically typed view. -/
def initialJState : JState :=
  { timerMinutes := .jnum 3
    timerSeconds := .jnum 0
    timerDefaultMinutes := .jnum 3
    isRunning := false
    alarmRunning := false
    oneMinuteChimePlayed := false
    thirtySecondChimePlayed := false
    psychicPoints := .jnum 20
    cannonPoints := .jnum 10
    commandPoints := .jnum 0
    customTrackers := .jarr []
    nextTrackerId := .jnum 1
    visibility := [("librarian", .jbool true), ("cannon", .jbool true),
                   ("command", .jbool true)] }

/-- Whether `j` is an array (whose `forEach` does not throw). -/
def isArr : JVal → Bool
  | .jarr _ => true
  | _ => false

/-- The visibility restore steps of `loadState` (src/app.js:1213-1223):
merge a truthy `data.visibility` over the current map, fold the legacy
`showLibrarian` boolean in when the `visibility` property is absent, then
delete the obsolete `timer` and `custom` keys. -/
def applyVisSteps (vis : List (String × JVal)) (data : JVal) : List (String × JVal) :=
  let vis1 := match getProp data ("visibility") with
    | some v => if truthy v then mergeProps vis (spreadProps v) else vis
    | none => vis
  let vis2 :=
    if (getProp data ("showLibrarian")).isSome && (getProp data ("visibility")).isNone then
      jsSetKey vis1 ("librarian") ((getProp data ("showLibrarian")).getD .jnull)
    else vis1
  jsDeleteKey (jsDeleteKey vis2 ("timer")) ("custom")

/-- The tail of `loadState` after the custom-tracker block
(src/app.js:1213-1240): only the visibility map changes. -/
def restOfLoad (s : JState) (data : JVal) : JState :=
  { s with visibility := applyVisSteps s.visibility data }

/-- `loadState` applied to a successfully parsed `data`
(src/app.js:1188-1240): timer fields, then the point pools, then the
custom-tracker block (whose `forEach` throws out of the whole function when
`data.customTrackers` is truthy but not an array), then the visibility
steps. -/
def loadParsed (s0 : JState) (data : JVal) : JState :=
  let s1 := match getProp data ("timer") with
    | some t =>
      if truthy t then
        { s0 with
          timerMinutes := nullishDefault (getProp t ("minutes")) (.jnum 3),
          timerSeconds := nullishDefault (getProp t ("seconds")) (.jnum 0),
          timerDefaultMinutes := nullishDefault (getProp t ("defaultMinutes")) (.jnum 3) }
      else s0
    | none => s0
  let s2 := { s1 with
              psychicPoints := nullishDefault (getProp data ("psychicPoints")) (.jnum 20),
              cannonPoints := nullishDefault (getProp data ("cannonPoints")) (.jnum 10),
              commandPoints := nullishDefault (getProp data ("commandPoints")) (.jnum 0) }
  match getProp data ("customTrackers") with
  | some ct =>
    if truthy ct then
      let s3 := { s2 with
                  customTrackers := ct,
                  nextTrackerId := jsOrDefault (getProp data ("nextTrackerId")) (.jnum 1) }
      match ct with
      | .jarr _ => restOfLoad s3 data
      | _ => s3
    else restOfLoad s2 data
  | none => restOfLoad s2 data

/-- Whether loading `data` aborts mid-way on the `forEach` of a truthy
non-array `customTrackers`. -/
def loadAborts (data : JVal) : Bool :=
  match getProp data ("customTrackers") with
  | some ct => truthy ct && !(isArr ct)
  | none => false

/-- What `localStorage.getItem` + `JSON.parse` yielded: no (or an empty)
stored string, a string `JSON.parse` throws on, or a parsed value. -/
inductive StoredValue
  | absent
  | malformed
  | parsed (data : JVal)

/-- `loadState` (src/app.js:1184-1245).  An absent item is skipped; a parse
error is caught before any assignment, so both leave the state as it was. -/
def loadState (s : JState) : StoredValue → JState
  | .absent => s
  | .malformed => s
  | .parsed data => loadParsed s data

/-- The JSON encoding of one custom tracker (src/app.js:1169). -/
def encodeTracker (t : Tracker) : JVal :=
  .jobj [("id", .jnum t.id), ("name", .jstr t.name),
         ("defaultValue", .jnum t.defaultValue), ("value", .jnum t.value)]

/-- The `saveData` object `saveState` serializes (src/app.js:1160-1172):
the timer position and configured duration, the three point pools, the
custom list, the next id and the visibility map — and nothing else (no
running flag, no chime flags, no interval handles). -/
def saveStateData (s : AppState) : JVal :=
  .jobj [("timer", .jobj [("minutes", .jnum s.timer.minutes),
                          ("seconds", .jnum s.timer.seconds),
                          ("defaultMinutes", .jnum s.timer.defaultMinutes)]),
         ("psychicPoints", .jnum s.psychicPoints),
         ("cannonPoints", .jnum s.cannonPoints),
         ("commandPoints", .jnum s.commandPoints),
         ("customTrackers", .jarr (s.customTrackers.map encodeTracker)),
         ("nextTrackerId", .jnum s.nextTrackerId),
         ("visibility", .jobj (s.visibility.map (fun p => (p.1, JVal.jbool p.2))))]

/-- Configure a fresh session to `d` minutes and press start: the state in
which a `d`-minute run begins. -/
def startedTimer (d : Nat) : AppState :=
  startTimer (setTimerMinutes initialState (some (d : Int)))

/-! Helper lemmas about the tick. -/

theorem tickChimes_minutes (t : TimerState) : (tickChimes t).1.minutes = t.minutes := by
  unfold tickChimes; dsimp only; split_ifs <;> rfl

theorem tickChimes_seconds (t : TimerState) : (tickChimes t).1.seconds = t.seconds := by
  unfold tickChimes; dsimp only; split_ifs <;> rfl

theorem tickChimes_isRunning (t : TimerState) : (tickChimes t).1.isRunning = t.isRunning := by
  unfold tickChimes; dsimp only; split_ifs <;> rfl

theorem tickChimes_defaultMinutes (t : TimerState) :
    (tickChimes t).1.defaultMinutes = t.defaultMinutes := by
  unfold tickChimes; dsimp only; split_ifs <;> rfl

theorem tickChimes_alarmRunning (t : TimerState) :
    (tickChimes t).1.alarmRunning = t.alarmRunning := by
  unfold tickChimes; dsimp only; split_ifs <;> rfl

theorem tickChimes_completed (t : TimerState) : (tickChimes t).2.completed = false := by
  unfold tickChimes; dsimp only; split_ifs <;> rfl

theorem timerTick_step (s : AppState) (hm : 0 ≤ s.timer.minutes) (hs : 0 ≤ s.timer.seconds)
    (hpos : 0 < s.timer.minutes * 60 + s.timer.seconds) :
    (timerTick s).1.timer.minutes * 60 + (timerTick s).1.timer.seconds
        = s.timer.minutes * 60 + s.timer.seconds - 1 ∧
    (timerTick s).1.timer.isRunning = s.timer.isRunning ∧
    0 ≤ (timerTick s).1.timer.minutes ∧ 0 ≤ (timerTick s).1.timer.seconds ∧
    (timerTick s).2.completed = false ∧
    (timerTick s).1.timer.defaultMinutes = s.timer.defaultMinutes ∧
    (timerTick s).1.timer.alarmRunning = s.timer.alarmRunning := by
  have e1 := tickChimes_minutes s.timer
  have e2 := tickChimes_seconds s.timer
  have e3 := tickChimes_isRunning s.timer
  have e4 := tickChimes_completed s.timer
  have e5 := tickChimes_defaultMinutes s.timer
  have e6 := tickChimes_alarmRunning s.timer
  unfold timerTick
  dsimp only
  split_ifs with hz hz2
  · rw [e2] at hz
    rw [e1] at hz2
    omega
  · dsimp only
    rw [e2] at hz
    rw [e1] at hz2 ⊢
    refine ⟨by omega, e3, by omega, by omega, e4, e5, e6⟩
  · dsimp only
    rw [e2] at hz
    rw [e1, e2]
    refine ⟨by omega, e3, by omega, by omega, e4, e5, e6⟩

theorem timerTick_finish (s : AppState) (hrun : s.timer.isRunning = true)
    (hm : s.timer.minutes = 0) (hs : s.timer.seconds = 0) :
    (timerTick s).1.timer.isRunning = false ∧
    (timerTick s).1.timer.minutes = 0 ∧ (timerTick s).1.timer.seconds = 0 ∧
    (timerTick s).1.timer.alarmRunning = true ∧
    (timerTick s).2.completed = true := by
  simp [timerTick, tickChimes, stopTimer, pauseTimer, stopAlarm, startContinuousAlarm,
        hm, hs, hrun]

theorem runTimer_notRunning (n : Nat) (s : AppState) (h : s.timer.isRunning = false) :
    runTimer n s = (s, 0) := by
  cases n <;> simp [runTimer, h]

theorem runTimer_succ (n : Nat) (s : AppState) (h : s.timer.isRunning = true) :
    runTimer (n + 1) s
      = ((runTimer n (timerTick s).1).1,
         (if (timerTick s).2.completed then 1 else 0) + (runTimer n (timerTick s).1).2) := by
  simp [runTimer, h]

theorem runTimer_countdown (n : Nat) :
    ∀ s : AppState, s.timer.isRunning = true →
    0 ≤ s.timer.minutes → 0 ≤ s.timer.seconds →
    s.timer.minutes * 60 + s.timer.seconds = (n : Int) →
    (runTimer n s).2 = 0 ∧ (runTimer n s).1.timer.isRunning = true ∧
    (runTimer n s).1.timer.minutes = 0 ∧ (runTimer n s).1.timer.seconds = 0 ∧
    (runTimer n s).1.timer.defaultMinutes = s.timer.defaultMinutes ∧
    (runTimer n s).1.timer.alarmRunning = s.timer.alarmRunning := by
  induction n with
  | zero =>
    intro s hrun hm hs htot
    have h1 : s.timer.minutes = 0 := by omega
    have h2 : s.timer.seconds = 0 := by omega
    simp [runTimer, hrun, h1, h2]
  | succ n ih =>
    intro s hrun hm hs htot
    have hpos : 0 < s.timer.minutes * 60 + s.timer.seconds := by
      rw [htot]; exact_mod_cast Nat.succ_pos n
    obtain ⟨e1, e2, e3, e4, e5, e6, e7⟩ := timerTick_step s hm hs hpos
    have hrun' : (timerTick s).1.timer.isRunning = true := by rw [e2, hrun]
    have htot' : (timerTick s).1.timer.minutes * 60 + (timerTick s).1.timer.seconds
        = (n : Int) := by rw [e1, htot]; push_cast; ring
    obtain ⟨f1, f2, f3, f4, f5, f6⟩ := ih (timerTick s).1 hrun' e3 e4 htot'
    rw [runTimer_succ n s hrun]
    exact ⟨by simp [e5, f1], f2, f3, f4, by rw [f5, e6], by rw [f6, e7]⟩

theorem runTimer_finishRun (k : Nat) (s : AppState) (hrun : s.timer.isRunning = true)
    (hm : s.timer.minutes = 0) (hs : s.timer.seconds = 0) :
    (runTimer (1 + k) s).2 = 1 ∧
    (runTimer (1 + k) s).1.timer.isRunning = false ∧
    (runTimer (1 + k) s).1.timer.minutes = 0 ∧
    (runTimer (1 + k) s).1.timer.seconds = 0 ∧
    (runTimer (1 + k) s).1.timer.alarmRunning = true := by
  obtain ⟨g1, g2, g3, g4, g5⟩ := timerTick_finish s hrun hm hs
  have hone : 1 + k = k + 1 := Nat.add_comm 1 k
  rw [hone, runTimer_succ k s hrun, runTimer_notRunning k (timerTick s).1 g1]
  simp [g1, g2, g3, g4, g5]

theorem runTimer_add (m n : Nat) (s : AppState) :
    runTimer (m + n) s
      = ((runTimer n (runTimer m s).1).1,
         (runTimer m s).2 + (runTimer n (runTimer m s).1).2) := by
  induction m generalizing s with
  | zero => simp [runTimer]
  | succ m ih =>
    by_cases h : s.timer.isRunning = true
    · have hsh : m + 1 + n = (m + n) + 1 := by omega
      rw [hsh, runTimer_succ (m + n) s h, runTimer_succ m s h, ih (timerTick s).1]
      dsimp only
      rw [Prod.mk.injEq]
      exact ⟨rfl, by omega⟩
    · have hf : s.timer.isRunning = false := by
        cases hb : s.timer.isRunning
        · rfl
        · exact absurd hb h
      rw [runTimer_notRunning (m + 1 + n) s hf, runTimer_notRunning (m + 1) s hf]
      dsimp only
      rw [runTimer_notRunning n s hf]
      simp

theorem startedTimer_eval (d : Nat) (h1 : 1 ≤ d) (h2 : d ≤ 60) :
    startedTimer d
      = { initialState with
          timer := { minutes := (d : Int), seconds := 0, isRunning := true,
                     defaultMinutes := (d : Int), alarmRunning := false,
                     oneMinuteChimePlayed := false, thirtySecondChimePlayed := false } } := by
  have hd0 : ¬((d : Int) = 0) := by omega
  have hmin : min (60 : Int) (d : Int) = (d : Int) := min_eq_right (by exact_mod_cast h2)
  have hmax : max (1 : Int) (d : Int) = (d : Int) := max_eq_right (by exact_mod_cast h1)
  simp [startedTimer, setTimerMinutes, startTimer, parseIntOr, initialState, hd0, hmin, hmax]

theorem tickChimes_fire60 (t : TimerState) (h : t.minutes * 60 + t.seconds = 60)
    (hp : t.oneMinuteChimePlayed = false) :
    (tickChimes t).2.oneMinuteChime = true ∧ (tickChimes t).1.oneMinuteChimePlayed = true := by
  simp [tickChimes, h, hp]

theorem tickChimes_fire30 (t : TimerState) (h : t.minutes * 60 + t.seconds = 30)
    (hp : t.thirtySecondChimePlayed = false) :
    (tickChimes t).2.thirtySecondChime = true ∧
    (tickChimes t).1.thirtySecondChimePlayed = true := by
  simp [tickChimes, h, hp]

theorem timerTick_chimeFlags (s : AppState) :
    (timerTick s).1.timer.oneMinuteChimePlayed = (tickChimes s.timer).1.oneMinuteChimePlayed ∧
    (timerTick s).1.timer.thirtySecondChimePlayed
      = (tickChimes s.timer).1.thirtySecondChimePlayed ∧
    (timerTick s).2.oneMinuteChime = (tickChimes s.timer).2.oneMinuteChime ∧
    (timerTick s).2.thirtySecondChime = (tickChimes s.timer).2.thirtySecondChime := by
  simp only [timerTick, stopTimer, pauseTimer, startContinuousAlarm, stopAlarm]
  split_ifs <;> simp

/-- Claim C1: while Running, a tick first evaluates the milestones on the
pre-decrement remaining time (60 seconds left fires the not-yet-fired
one-minute chime and marks it fired, otherwise 30 seconds left fires the
not-yet-fired thirty-second chime and marks it fired) and only then
decrements: positive seconds decrease by one; otherwise positive minutes
decrease by one with seconds becoming 59; otherwise (0:00) the clock
finishes — advancement stops, the completion event fires on this tick and
never again. -/
theorem timerTick_semantics (s : AppState)
    (hrun : s.timer.isRunning = true)
    (hm : 0 ≤ s.timer.minutes) (hs : 0 ≤ s.timer.seconds) :
    ((s.timer.minutes * 60 + s.timer.seconds = 60 ∧ s.timer.oneMinuteChimePlayed = false) →
       (timerTick s).2.oneMinuteChime = true ∧
       (timerTick s).1.timer.oneMinuteChimePlayed = true) ∧
    (¬(s.timer.minutes * 60 + s.timer.seconds = 60 ∧ s.timer.oneMinuteChimePlayed = false) →
       (s.timer.minutes * 60 + s.timer.seconds = 30 ∧
          s.timer.thirtySecondChimePlayed = false) →
       (timerTick s).2.thirtySecondChime = true ∧
       (timerTick s).1.timer.thirtySecondChimePlayed = true) ∧
    (0 < s.timer.seconds →
       (timerTick s).1.timer.seconds = s.timer.seconds - 1 ∧
       (timerTick s).1.timer.minutes = s.timer.minutes ∧
       (timerTick s).1.timer.isRunning = true ∧ (timerTick s).2.completed = false) ∧
    (s.timer.seconds = 0 → 0 < s.timer.minutes →
       (timerTick s).1.timer.minutes = s.timer.minutes - 1 ∧
       (timerTick s).1.timer.seconds = 59 ∧
       (timerTick s).1.timer.isRunning = true ∧ (timerTick s).2.completed = false) ∧
    (s.timer.seconds = 0 → s.timer.minutes = 0 →
       (timerTick s).1.timer.isRunning = false ∧
       (timerTick s).1.timer.minutes = 0 ∧ (timerTick s).1.timer.seconds = 0 ∧
       (timerTick s).1.timer.alarmRunning = true ∧
       (timerTick s).2.completed = true ∧
       ∀ n, runTimer n (timerTick s).1 = ((timerTick s).1, 0)) := by
  have e1 := tickChimes_minutes s.timer
  have e2 := tickChimes_seconds s.timer
  have e3 := tickChimes_isRunning s.timer
  have e4 := tickChimes_completed s.timer
  have hflags := timerTick_chimeFlags s
  refine ⟨?_, ?_, ?_, ?_, ?_⟩
  · intro hcond
    have hc := tickChimes_fire60 s.timer hcond.1 hcond.2
    exact ⟨by rw [hflags.2.2.1]; exact hc.1, by rw [hflags.1]; exact hc.2⟩
  · intro _ hcond
    have hc := tickChimes_fire30 s.timer hcond.1 hcond.2
    exact ⟨by rw [hflags.2.2.2]; exact hc.1, by rw [hflags.2.1]; exact hc.2⟩
  · intro hpos
    unfold timerTick
    dsimp only
    rw [e1, e2, if_neg (by omega)]
    dsimp only
    exact ⟨rfl, rfl, by rw [e3, hrun], e4⟩
  · intro hs0 hmpos
    unfold timerTick
    dsimp only
    rw [e1, e2, if_pos hs0, if_neg (by omega)]
    dsimp only
    exact ⟨rfl, rfl, by rw [e3, hrun], e4⟩
  · intro hs0 hm0
    obtain ⟨g1, g2, g3, g4, g5⟩ := timerTick_finish s hrun hm0 hs0
    exact ⟨g1, g2, g3, g4, g5, fun n => runTimer_notRunning n (timerTick s).1 g1⟩

/-- Witness for C1 at the concrete running state obtained by starting a
fresh 3-minute session. -/
theorem timerTick_semantics_witness :
    ((startTimer initialState).timer.isRunning = true ∧
      0 ≤ (startTimer initialState).timer.minutes ∧
      0 ≤ (startTimer initialState).timer.seconds) ∧
    ((((startTimer initialState).timer.minutes * 60 + (startTimer initialState).timer.seconds
          = 60 ∧ (startTimer initialState).timer.oneMinuteChimePlayed = false) →
       (timerTick (startTimer initialState)).2.oneMinuteChime = true ∧
       (timerTick (startTimer initialState)).1.timer.oneMinuteChimePlayed = true) ∧
    (¬((startTimer initialState).timer.minutes * 60 + (startTimer initialState).timer.seconds
          = 60 ∧ (startTimer initialState).timer.oneMinuteChimePlayed = false) →
       ((startTimer initialState).timer.minutes * 60 + (startTimer initialState).timer.seconds
          = 30 ∧ (startTimer initialState).timer.thirtySecondChimePlayed = false) →
       (timerTick (startTimer initialState)).2.thirtySecondChime = true ∧
       (timerTick (startTimer initialState)).1.timer.thirtySecondChimePlayed = true) ∧
    (0 < (startTimer initialState).timer.seconds →
       (timerTick (startTimer initialState)).1.timer.seconds
          = (startTimer initialState).timer.seconds - 1 ∧
       (timerTick (startTimer initialState)).1.timer.minutes
          = (startTimer initialState).timer.minutes ∧
       (timerTick (startTimer initialState)).1.timer.isRunning = true ∧
       (timerTick (startTimer initialState)).2.completed = false) ∧
    ((startTimer initialState).timer.seconds = 0 →
       0 < (startTimer initialState).timer.minutes →
       (timerTick (startTimer initialState)).1.timer.minutes
          = (startTimer initialState).timer.minutes - 1 ∧
       (timerTick (startTimer initialState)).1.timer.seconds = 59 ∧
       (timerTick (startTimer initialState)).1.timer.isRunning = true ∧
       (timerTick (startTimer initialState)).2.completed = false) ∧
    ((startTimer initialState).timer.seconds = 0 →
       (startTimer initialState).timer.minutes = 0 →
       (timerTick (startTimer initialState)).1.timer.isRunning = false ∧
       (timerTick (startTimer initialState)).1.timer.minutes = 0 ∧
       (timerTick (startTimer initialState)).1.timer.seconds = 0 ∧
       (timerTick (startTimer initialState)).1.timer.alarmRunning = true ∧
       (timerTick (startTimer initialState)).2.completed = true ∧
       ∀ n, runTimer n (timerTick (startTimer initialState)).1
          = ((timerTick (startTimer initialState)).1, 0))) :=
  ⟨⟨by decide, by decide, by decide⟩,
   timerTick_semantics (startTimer initialState) (by decide) (by decide) (by decide)⟩

/-- Claim C2 counterexample: with d = 1, after exactly d*60 = 60 ticks the
clock shows 0:00 but is still Running and the completion event has not
fired — the transition to Finished happens only on the next tick, so the
claim fails as stated. -/
theorem runTimer_d60_counterexample :
    (runTimer 60 (startedTimer 1)).1.timer.minutes = 0 ∧
    (runTimer 60 (startedTimer 1)).1.timer.seconds = 0 ∧
    (runTimer 60 (startedTimer 1)).1.timer.isRunning = true ∧
    (runTimer 60 (startedTimer 1)).2 = 0 := by
  refine ⟨rfl, rfl, rfl, rfl⟩

/-- Claim C2 (amended): for every configured duration d with 1 ≤ d ≤ 60,
starting at d minutes and running d*60 ticks leaves the clock Running at
exactly 0:00 with no completion fired; the (d*60+1)-st tick transitions to
Finished, and after any number of further ticks the completion count stays
exactly one, with the clock stopped at 0:00 and the alarm sounding. -/
theorem runTimer_completes (d : Nat) (h1 : 1 ≤ d) (h2 : d ≤ 60) (k : Nat) :
    ((runTimer (60 * d) (startedTimer d)).1.timer.minutes = 0 ∧
     (runTimer (60 * d) (startedTimer d)).1.timer.seconds = 0 ∧
     (runTimer (60 * d) (startedTimer d)).1.timer.isRunning = true ∧
     (runTimer (60 * d) (startedTimer d)).2 = 0) ∧
    ((runTimer (60 * d + (1 + k)) (startedTimer d)).2 = 1 ∧
     (runTimer (60 * d + (1 + k)) (startedTimer d)).1.timer.isRunning = false ∧
     (runTimer (60 * d + (1 + k)) (startedTimer d)).1.timer.minutes = 0 ∧
     (runTimer (60 * d + (1 + k)) (startedTimer d)).1.timer.seconds = 0 ∧
     (runTimer (60 * d + (1 + k)) (startedTimer d)).1.timer.alarmRunning = true) := by
  have hst := startedTimer_eval d h1 h2
  have hrun : (startedTimer d).timer.isRunning = true := by rw [hst]
  have hmv : (startedTimer d).timer.minutes = (d : Int) := by rw [hst]
  have hsv : (startedTimer d).timer.seconds = 0 := by rw [hst]
  have hm0 : 0 ≤ (startedTimer d).timer.minutes := by rw [hmv]; exact_mod_cast Nat.zero_le d
  have hs0 : 0 ≤ (startedTimer d).timer.seconds := by rw [hsv]
  have htot : (startedTimer d).timer.minutes * 60 + (startedTimer d).timer.seconds
      = ((60 * d : Nat) : Int) := by rw [hmv, hsv]; push_cast; ring
  obtain ⟨c1, c2, c3, c4, c5, c6⟩ :=
    runTimer_countdown (60 * d) (startedTimer d) hrun hm0 hs0 htot
  refine ⟨⟨c3, c4, c2, c1⟩, ?_⟩
  have hadd := runTimer_add (60 * d) (1 + k) (startedTimer d)
  obtain ⟨f1, f2, f3, f4, f5⟩ :=
    runTimer_finishRun k (runTimer (60 * d) (startedTimer d)).1 c2 c3 c4
  rw [hadd]
  exact ⟨by rw [c1, f1], f2, f3, f4, f5⟩

/-- Witness for the amended C2 at d = 1, k = 0. -/
theorem runTimer_completes_witness :
    (1 ≤ 1 ∧ 1 ≤ 60) ∧
    (((runTimer (60 * 1) (startedTimer 1)).1.timer.minutes = 0 ∧
      (runTimer (60 * 1) (startedTimer 1)).1.timer.seconds = 0 ∧
      (runTimer (60 * 1) (startedTimer 1)).1.timer.isRunning = true ∧
      (runTimer (60 * 1) (startedTimer 1)).2 = 0) ∧
     ((runTimer (60 * 1 + (1 + 0)) (startedTimer 1)).2 = 1 ∧
      (runTimer (60 * 1 + (1 + 0)) (startedTimer 1)).1.timer.isRunning = false ∧
      (runTimer (60 * 1 + (1 + 0)) (startedTimer 1)).1.timer.minutes = 0 ∧
      (runTimer (60 * 1 + (1 + 0)) (startedTimer 1)).1.timer.seconds = 0 ∧
      (runTimer (60 * 1 + (1 + 0)) (startedTimer 1)).1.timer.alarmRunning = true)) :=
  ⟨⟨le_refl 1, by omega⟩, runTimer_completes 1 (le_refl 1) (by omega) 0⟩

theorem adjustTracker_nonneg (id delta : Int) (l : List Tracker)
    (h : ∀ t ∈ l, 0 ≤ t.value) : ∀ t ∈ adjustTracker id delta l, 0 ≤ t.value := by
  induction l with
  | nil => intro t ht; simp [adjustTracker] at ht
  | cons u us ih =>
    intro t ht
    by_cases hu : u.id = id
    · simp [adjustTracker, hu] at ht
      rcases ht with h1 | h2
      · rw [h1]; exact le_max_left 0 _
      · exact h t (by simp [h2])
    · simp [adjustTracker, hu] at ht
      rcases ht with h1 | h2
      · rw [h1]; exact h u (by simp)
      · exact ih (fun t ht => h t (by simp [ht])) t h2

theorem adjustTracker_noMatch (id delta : Int) (l : List Tracker)
    (h : ∀ t ∈ l, t.id ≠ id) : adjustTracker id delta l = l := by
  induction l with
  | nil => rfl
  | cons u us ih =>
    have hu : ¬(u.id = id) := h u (by simp)
    simp [adjustTracker, hu]
    exact ih (fun t ht => h t (by simp [ht]))

theorem adjustTracker_firstMatch (id delta : Int) (pre rest : List Tracker) (t : Tracker)
    (hpre : ∀ u ∈ pre, u.id ≠ id) (ht : t.id = id) :
    adjustTracker id delta (pre ++ t :: rest)
      = pre ++ { t with value := max 0 (t.value + delta) } :: rest := by
  induction pre with
  | nil => simp [adjustTracker, ht]
  | cons u us ih =>
    have hu : ¬(u.id = id) := hpre u (by simp)
    simp [adjustTracker, hu]
    exact ih (fun v hv => hpre v (by simp [hv]))

theorem adjustPoints_preserves (s : AppState) (ref : PointsRef) (delta : Int)
    (h : pointsNonneg s) : pointsNonneg (adjustPoints s ref delta) := by
  obtain ⟨h1, h2, h3, h4⟩ := h
  cases ref with
  | psychic => exact ⟨le_max_left 0 _, h2, h3, h4⟩
  | cannon => exact ⟨h1, le_max_left 0 _, h3, h4⟩
  | command => exact ⟨h1, h2, le_max_left 0 _, h4⟩
  | custom id => exact ⟨h1, h2, h3, adjustTracker_nonneg id delta s.customTrackers h4⟩
  | other => exact ⟨h1, h2, h3, h4⟩

/-- Claim C3: under any sequence of ±1 adjustments no counter value ever
goes negative; each adjustment writes max(0, current + delta) into the
addressed counter (so a counter at 0 adjusted by -1 stays 0), and an
adjustment through an unknown reference — a custom id no tracker carries,
or a reference that is not a counter at all — changes nothing. -/
theorem adjustPoints_semantics :
    (∀ (s : AppState) (ops : List (PointsRef × Int)),
       (∀ p ∈ ops, p.2 = 1 ∨ p.2 = -1) → pointsNonneg s →
       pointsNonneg (applyAdjusts s ops)) ∧
    (∀ (s : AppState) (delta : Int),
       (adjustPoints s .psychic delta).psychicPoints = max 0 (s.psychicPoints + delta) ∧
       (adjustPoints s .cannon delta).cannonPoints = max 0 (s.cannonPoints + delta) ∧
       (adjustPoints s .command delta).commandPoints = max 0 (s.commandPoints + delta)) ∧
    (∀ s : AppState, s.psychicPoints = 0 →
       (adjustPoints s .psychic (-1)).psychicPoints = 0) ∧
    (∀ (s : AppState) (id delta : Int) (pre rest : List Tracker) (t : Tracker),
       s.customTrackers = pre ++ t :: rest → (∀ u ∈ pre, u.id ≠ id) → t.id = id →
       (adjustPoints s (.custom id) delta).customTrackers
         = pre ++ { t with value := max 0 (t.value + delta) } :: rest) ∧
    (∀ (s : AppState) (id delta : Int),
       (∀ t ∈ s.customTrackers, t.id ≠ id) → adjustPoints s (.custom id) delta = s) ∧
    (∀ (s : AppState) (delta : Int), adjustPoints s .other delta = s) := by
  refine ⟨?_, ?_, ?_, ?_, ?_, ?_⟩
  · intro s ops
    induction ops generalizing s with
    | nil => intro _ h; exact h
    | cons p ps ih =>
      intro hall h
      exact ih (adjustPoints s p.1 p.2) (fun q hq => hall q (by simp [hq]))
        (adjustPoints_preserves s p.1 p.2 h)
  · intro s delta; exact ⟨rfl, rfl, rfl⟩
  · intro s h0; simp [adjustPoints, h0]
  · intro s id delta pre rest t hl hpre ht
    simp only [adjustPoints]
    rw [hl]
    exact adjustTracker_firstMatch id delta pre rest t hpre ht
  · intro s id delta h
    simp only [adjustPoints]
    rw [adjustTracker_noMatch id delta s.customTrackers h]
  · intro s delta; rfl

/-- Witness for C3: a concrete adjustment run that drains the command
counter below its floor. -/
theorem adjustPoints_semantics_witness :
    pointsNonneg
      (applyAdjusts initialState
        [(PointsRef.command, 1), (PointsRef.command, -1), (PointsRef.command, -1),
         (PointsRef.psychic, -1), (PointsRef.custom 7, -1)]) :=
  adjustPoints_semantics.1 initialState
    [(PointsRef.command, 1), (PointsRef.command, -1), (PointsRef.command, -1),
     (PointsRef.psychic, -1), (PointsRef.custom 7, -1)]
    (by decide) (by decide)

theorem setTimerMinutes_fields (s : AppState) (i : Option Int) :
    (setTimerMinutes s i).timer.defaultMinutes = max 1 (min 60 (parseIntOr i 3)) ∧
    (setTimerMinutes s i).timer.oneMinuteChimePlayed = s.timer.oneMinuteChimePlayed ∧
    (setTimerMinutes s i).timer.thirtySecondChimePlayed = s.timer.thirtySecondChimePlayed ∧
    (setTimerMinutes s i).timer.isRunning = s.timer.isRunning ∧
    (s.timer.isRunning = false →
       (setTimerMinutes s i).timer.minutes = max 1 (min 60 (parseIntOr i 3)) ∧
       (setTimerMinutes s i).timer.seconds = 0) ∧
    (s.timer.isRunning = true →
       (setTimerMinutes s i).timer.minutes = s.timer.minutes ∧
       (setTimerMinutes s i).timer.seconds = s.timer.seconds) := by
  unfold setTimerMinutes
  dsimp only
  split_ifs with h
  · refine ⟨rfl, rfl, rfl, rfl, ?_, fun _ => ⟨rfl, rfl⟩⟩
    intro hf
    rw [hf] at h
    exact absurd h (by decide)
  · refine ⟨rfl, rfl, rfl, rfl, fun _ => ⟨rfl, rfl⟩, ?_⟩
    intro ht
    rw [ht] at h
    exact absurd rfl h

/-- Claim C4 counterexample: in a non-running state whose thirty-second
milestone flag is set, configuring 5 minutes leaves the flag set, although
the claim requires configure to clear both milestone flags whenever the
clock is not running. -/
theorem setTimerMinutes_counterexample :
    ({ initialState with
       timer := { initialState.timer with
                  thirtySecondChimePlayed := true } } : AppState).timer.isRunning = false ∧
    (setTimerMinutes
        { initialState with
          timer := { initialState.timer with thirtySecondChimePlayed := true } }
        (some 5)).timer.thirtySecondChimePlayed = true := by
  exact ⟨rfl, rfl⟩

/-- Claim C4 (amended): configure clamps its input into [1,60] (an
unparseable or zero input defaults to 3) and never rejects; when the clock
is not running it also resets the displayed remaining time to the new
duration with seconds = 0, and when running it leaves the displayed time
alone — but it never clears the milestone-fired flags (only reset does). -/
theorem setTimerMinutes_semantics (s : AppState) (i : Option Int) :
    (1 ≤ (setTimerMinutes s i).timer.defaultMinutes ∧
     (setTimerMinutes s i).timer.defaultMinutes ≤ 60) ∧
    (∀ v : Int, i = some v → 1 ≤ v → v ≤ 60 →
       (setTimerMinutes s i).timer.defaultMinutes = v) ∧
    (s.timer.isRunning = false →
       (setTimerMinutes s i).timer.minutes = (setTimerMinutes s i).timer.defaultMinutes ∧
       (setTimerMinutes s i).timer.seconds = 0) ∧
    (s.timer.isRunning = true →
       (setTimerMinutes s i).timer.minutes = s.timer.minutes ∧
       (setTimerMinutes s i).timer.seconds = s.timer.seconds) ∧
    (setTimerMinutes s i).timer.oneMinuteChimePlayed = s.timer.oneMinuteChimePlayed ∧
    (setTimerMinutes s i).timer.thirtySecondChimePlayed = s.timer.thirtySecondChimePlayed := by
  obtain ⟨f1, f2, f3, f4, f5, f6⟩ := setTimerMinutes_fields s i
  refine ⟨?_, ?_, ?_, f6, f2, f3⟩
  · constructor
    · rw [f1]; exact le_max_left 1 _
    · rw [f1]
      exact max_le (by norm_num) (min_le_left 60 _)
  · intro v hv h1 h60
    rw [f1, hv]
    have hv0 : ¬(v = 0) := by omega
    have hmin : min (60 : Int) v = v := min_eq_right h60
    have hmax : max (1 : Int) v = v := max_eq_right h1
    simp [parseIntOr, hv0, hmin, hmax]
  · intro hf
    obtain ⟨g1, g2⟩ := f5 hf
    exact ⟨by rw [g1, f1], g2⟩

/-- Witness for the amended C4 at the fresh state and input 5. -/
theorem setTimerMinutes_semantics_witness :
    (initialState.timer.isRunning = false) ∧
    ((setTimerMinutes initialState (some 5)).timer.minutes
        = (setTimerMinutes initialState (some 5)).timer.defaultMinutes ∧
     (setTimerMinutes initialState (some 5)).timer.seconds = 0) ∧
    ((1 : Int) ≤ 5 ∧ (5 : Int) ≤ 60) ∧
    (setTimerMinutes initialState (some 5)).timer.defaultMinutes = 5 :=
  ⟨by decide, (setTimerMinutes_semantics initialState (some 5)).2.2.1 (by decide),
   ⟨by decide, by decide⟩,
   (setTimerMinutes_semantics initialState (some 5)).2.1 5 rfl (by decide) (by decide)⟩

theorem timerTick_alarmTrue (s : AppState) (h : s.timer.alarmRunning = true) :
    (timerTick s).1.timer.alarmRunning = true := by
  have e6 := tickChimes_alarmRunning s.timer
  unfold timerTick
  dsimp only
  split_ifs with h1 h2
  · rfl
  · rw [e6]; exact h
  · rw [e6]; exact h

theorem runTimer_alarmTrue (n : Nat) : ∀ s : AppState, s.timer.alarmRunning = true →
    (runTimer n s).1.timer.alarmRunning = true := by
  induction n with
  | zero => intro s h; simpa [runTimer] using h
  | succ n ih =>
    intro s h
    by_cases hr : s.timer.isRunning = true
    · rw [runTimer_succ n s hr]
      exact ih (timerTick s).1 (timerTick_alarmTrue s h)
    · have hf : s.timer.isRunning = false := by
        cases hb : s.timer.isRunning
        · rfl
        · exact absurd hb hr
      rw [runTimer_notRunning (n + 1) s hf]
      exact h

/-- Claim C5 counterexample: in the Finished state reached by running a
one-minute session to completion the alarm is sounding, yet `pauseTimer`
and `stopTimer` leave it sounding — the claim that pause()/stop() silence
the alarm fails. -/
theorem pauseTimer_alarm_counterexample :
    (runTimer 61 (startedTimer 1)).1.timer.alarmRunning = true ∧
    (runTimer 61 (startedTimer 1)).1.timer.isRunning = false ∧
    (pauseTimer (runTimer 61 (startedTimer 1)).1).timer.alarmRunning = true ∧
    (stopTimer (runTimer 61 (startedTimer 1)).1).timer.alarmRunning = true := by
  exact ⟨rfl, rfl, rfl, rfl⟩

/-- Claim C5 (amended): once sounding, the alarm repeats at the fixed
2000 ms cadence and never self-terminates — no amount of ticking silences
it, and neither does pause()/stop(); it continues until reset(), which does
silence it. -/
theorem alarm_semantics (s : AppState) (h : s.timer.alarmRunning = true) :
    alarmIntervalMs = 2000 ∧
    (∀ n, (runTimer n s).1.timer.alarmRunning = true) ∧
    (pauseTimer s).timer.alarmRunning = true ∧
    (stopTimer s).timer.alarmRunning = true ∧
    (resetTimer s).timer.alarmRunning = false ∧
    (∀ x : AppState, (startContinuousAlarm x).timer.alarmRunning = true) := by
  refine ⟨rfl, fun n => runTimer_alarmTrue n s h, ?_, ?_, rfl, fun x => rfl⟩
  · unfold pauseTimer; split_ifs <;> exact h
  · unfold stopTimer pauseTimer; split_ifs <;> exact h

/-- Witness for the amended C5 at the concrete Finished state of a
one-minute run. -/
theorem alarm_semantics_witness :
    ((runTimer 61 (startedTimer 1)).1.timer.alarmRunning = true) ∧
    (alarmIntervalMs = 2000 ∧
     (∀ n, (runTimer n (runTimer 61 (startedTimer 1)).1).1.timer.alarmRunning = true) ∧
     (pauseTimer (runTimer 61 (startedTimer 1)).1).timer.alarmRunning = true ∧
     (stopTimer (runTimer 61 (startedTimer 1)).1).timer.alarmRunning = true ∧
     (resetTimer (runTimer 61 (startedTimer 1)).1).timer.alarmRunning = false ∧
     (∀ x : AppState, (startContinuousAlarm x).timer.alarmRunning = true)) :=
  ⟨rfl, alarm_semantics (runTimer 61 (startedTimer 1)).1 rfl⟩

theorem jsLookup_setKey_self {α : Type} (l : List (String × α)) (k : String) (v : α) :
    jsLookup (jsSetKey l k v) k = some v := by
  induction l with
  | nil => simp [jsSetKey, jsLookup]
  | cons p t ih =>
    by_cases hp : p.1 = k
    · simp [jsSetKey, hp, jsLookup]
    · simp [jsSetKey, hp, jsLookup, ih]

/-- Claim C6 counterexample: the default-value input parses to the valid
integer 0, yet the created tracker gets the fallback default 10 instead of
the clamped 0 the claim requires — `parseInt(x) || 10` treats 0 as falsy. -/
theorem addCustomTracker_counterexample :
    (addCustomTracker initialState ("Ammo") (some 0)).customTrackers
      = [{ id := 1, name := "Ammo", defaultValue := 10, value := 10 }] ∧
    ¬((addCustomTracker initialState ("Ammo") (some 0)).customTrackers
      = [{ id := 1, name := "Ammo", defaultValue := 0, value := 0 }]) := by
  exact ⟨rfl, by decide⟩

/-- Claim C6 (amended): a name that is empty after trimming is rejected as
a complete no-op; an accepted call clamps the default to ≥ 0 but falls back
to 10 both when the input is not a valid integer and when it parses to 0
(0 is falsy under the `||` fallback), assigns the next sequential id,
appends the tracker to the ordered custom list, initializes its value to
the default and marks it visible. -/
theorem addCustomTracker_semantics (s : AppState) (nameInput : String) (inp : Option Int) :
    (jsTrim nameInput = "" → addCustomTracker s nameInput inp = s) ∧
    (¬(jsTrim nameInput = "") →
       (addCustomTracker s nameInput inp).customTrackers
         = s.customTrackers ++
             [{ id := s.nextTrackerId, name := jsTrim nameInput,
                defaultValue := max 0 (parseIntOr inp 10),
                value := max 0 (parseIntOr inp 10) }] ∧
       (addCustomTracker s nameInput inp).nextTrackerId = s.nextTrackerId + 1 ∧
       jsLookup (addCustomTracker s nameInput inp).visibility
           (("custom-") ++ toString s.nextTrackerId) = some true ∧
       0 ≤ max 0 (parseIntOr inp 10) ∧
       (inp = none → parseIntOr inp 10 = 10) ∧
       (inp = some 0 → parseIntOr inp 10 = 10) ∧
       (∀ v, inp = some v → ¬(v = 0) → parseIntOr inp 10 = v)) := by
  constructor
  · intro h
    simp [addCustomTracker, h]
  · intro h
    refine ⟨?_, ?_, ?_, le_max_left 0 _, ?_, ?_, ?_⟩
    · simp [addCustomTracker, h]
    · simp [addCustomTracker, h]
    · simp only [addCustomTracker, if_neg h]
      exact jsLookup_setKey_self s.visibility _ true
    · intro hv; rw [hv]; rfl
    · intro hv; rw [hv]; rfl
    · intro v hv hv0; rw [hv]; simp [parseIntOr, hv0]

/-- Witness for the amended C6: a whitespace name is rejected without
mutation, and the accepted call with input 4 creates the expected tracker. -/
theorem addCustomTracker_semantics_witness :
    ((jsTrim ("  ") = "") ∧ addCustomTracker initialState ("  ") (some 4) = initialState) ∧
    (¬(jsTrim ("Ammo") = "") ∧
     ((addCustomTracker initialState ("Ammo") (some 4)).customTrackers
         = initialState.customTrackers ++
             [{ id := initialState.nextTrackerId, name := jsTrim ("Ammo"),
                defaultValue := max 0 (parseIntOr (some 4) 10),
                value := max 0 (parseIntOr (some 4) 10) }] ∧
      (addCustomTracker initialState ("Ammo") (some 4)).nextTrackerId
         = initialState.nextTrackerId + 1 ∧
      jsLookup (addCustomTracker initialState ("Ammo") (some 4)).visibility
          (("custom-") ++ toString initialState.nextTrackerId) = some true ∧
      0 ≤ max 0 (parseIntOr (some 4) 10) ∧
      (some (4 : Int) = none → parseIntOr (some 4) 10 = 10) ∧
      (some (4 : Int) = some 0 → parseIntOr (some 4) 10 = 10) ∧
      (∀ v, some (4 : Int) = some v → ¬(v = 0) → parseIntOr (some 4) 10 = v))) :=
  ⟨⟨by decide, (addCustomTracker_semantics initialState ("  ") (some 4)).1 (by decide)⟩,
   ⟨by decide, (addCustomTracker_semantics initialState ("Ammo") (some 4)).2 (by decide)⟩⟩

theorem jsLookup_deleteKey_self {α : Type} (l : List (String × α)) (k : String) :
    jsLookup (jsDeleteKey l k) k = none := by
  induction l with
  | nil => rfl
  | cons p t ih =>
    by_cases hp : p.1 = k
    · simp [jsDeleteKey, hp] at ih ⊢
      exact ih
    · simp [jsDeleteKey, jsLookup, hp] at ih ⊢
      exact ih

theorem jsLookup_deleteKey_ne {α : Type} (l : List (String × α)) (k k' : String)
    (h : ¬(k' = k)) : jsLookup (jsDeleteKey l k) k' = jsLookup l k' := by
  induction l with
  | nil => rfl
  | cons p t ih =>
    have h3 : ¬(k = k') := fun he => h he.symm
    by_cases hp : p.1 = k
    · have h2 : ¬(p.1 = k') := by rw [hp]; intro he; exact h he.symm
      simp [jsDeleteKey, jsLookup, List.filter_cons, hp, h2, h, h3] at ih ⊢
      exact ih
    · by_cases hq : p.1 = k'
      · simp [jsDeleteKey, jsLookup, List.filter_cons, hp, hq, h, h3]
      · simp [jsDeleteKey, jsLookup, List.filter_cons, hp, hq, h, h3] at ih ⊢
        exact ih

theorem jsLookup_mapVal {α β : Type} (f : α → β) (l : List (String × α)) (k : String) :
    jsLookup (l.map (fun p => (p.1, f p.2))) k = (jsLookup l k).map f := by
  induction l with
  | nil => rfl
  | cons p t ih =>
    by_cases hp : p.1 = k
    · simp [jsLookup, hp]
    · simp [jsLookup, hp, ih]

theorem jsLookup_merge (a b : List (String × JVal)) (k : String) :
    jsLookup (mergeProps a b) k
      = (match jsLookup b k with
         | some v => some v
         | none => jsLookup a k) := by
  induction a with
  | nil =>
    simp only [mergeProps, List.map_nil, List.nil_append]
    cases h : jsLookup b k <;> simp [jsLookup, h]
  | cons p t ih =>
    by_cases hp : p.1 = k
    · simp only [mergeProps, List.map_cons, List.cons_append, jsLookup, hp, if_pos]
      cases h : jsLookup b k with
      | none => simp [hp ▸ h]
      | some v => simp [hp ▸ h]
    · simp only [mergeProps, List.map_cons, List.cons_append, jsLookup, hp, if_neg] at ih ⊢
      simpa using ih

theorem loadParsed_psychicPoints (s0 : JState) (data : JVal) :
    (loadParsed s0 data).psychicPoints
      = nullishDefault (getProp data ("psychicPoints")) (.jnum 20) := by
  unfold loadParsed restOfLoad
  dsimp only
  repeat' split <;> try rfl

theorem loadParsed_cannonPoints (s0 : JState) (data : JVal) :
    (loadParsed s0 data).cannonPoints
      = nullishDefault (getProp data ("cannonPoints")) (.jnum 10) := by
  unfold loadParsed restOfLoad
  dsimp only
  repeat' split <;> try rfl

theorem loadParsed_commandPoints (s0 : JState) (data : JVal) :
    (loadParsed s0 data).commandPoints
      = nullishDefault (getProp data ("commandPoints")) (.jnum 0) := by
  unfold loadParsed restOfLoad
  dsimp only
  repeat' split <;> try rfl

theorem loadParsed_timerMinutes (s0 : JState) (data : JVal) :
    (loadParsed s0 data).timerMinutes
      = (match getProp data ("timer") with
         | some t =>
             if truthy t then nullishDefault (getProp t ("minutes")) (.jnum 3)
             else s0.timerMinutes
         | none => s0.timerMinutes) := by
  unfold loadParsed restOfLoad
  dsimp only
  repeat' split <;> try rfl

theorem loadParsed_timerSeconds (s0 : JState) (data : JVal) :
    (loadParsed s0 data).timerSeconds
      = (match getProp data ("timer") with
         | some t =>
             if truthy t then nullishDefault (getProp t ("seconds")) (.jnum 0)
             else s0.timerSeconds
         | none => s0.timerSeconds) := by
  unfold loadParsed restOfLoad
  dsimp only
  repeat' split <;> try rfl

theorem loadParsed_timerDefaultMinutes (s0 : JState) (data : JVal) :
    (loadParsed s0 data).timerDefaultMinutes
      = (match getProp data ("timer") with
         | some t =>
             if truthy t then nullishDefault (getProp t ("defaultMinutes")) (.jnum 3)
             else s0.timerDefaultMinutes
         | none => s0.timerDefaultMinutes) := by
  unfold loadParsed restOfLoad
  dsimp only
  repeat' split <;> try rfl

theorem loadParsed_customTrackers (s0 : JState) (data : JVal) :
    (loadParsed s0 data).customTrackers
      = (match getProp data ("customTrackers") with
         | some ct => if truthy ct then ct else s0.customTrackers
         | none => s0.customTrackers) := by
  unfold loadParsed restOfLoad
  dsimp only
  repeat' split <;> try rfl

theorem loadParsed_nextTrackerId (s0 : JState) (data : JVal) :
    (loadParsed s0 data).nextTrackerId
      = (match getProp data ("customTrackers") with
         | some ct =>
             if truthy ct then jsOrDefault (getProp data ("nextTrackerId")) (.jnum 1)
             else s0.nextTrackerId
         | none => s0.nextTrackerId) := by
  unfold loadParsed restOfLoad
  dsimp only
  repeat' split <;> try rfl

theorem loadParsed_untouched (s0 : JState) (data : JVal) :
    (loadParsed s0 data).isRunning = s0.isRunning ∧
    (loadParsed s0 data).alarmRunning = s0.alarmRunning ∧
    (loadParsed s0 data).oneMinuteChimePlayed = s0.oneMinuteChimePlayed ∧
    (loadParsed s0 data).thirtySecondChimePlayed = s0.thirtySecondChimePlayed := by
  refine ⟨?_, ?_, ?_, ?_⟩ <;>
    (unfold loadParsed restOfLoad; dsimp only; repeat' split <;> try rfl)

theorem loadParsed_visibility (s0 : JState) (data : JVal) :
    (loadParsed s0 data).visibility
      = (match getProp data ("customTrackers") with
         | some ct =>
             if truthy ct then
               (match ct with
                | .jarr _ => applyVisSteps s0.visibility data
                | _ => s0.visibility)
             else applyVisSteps s0.visibility data
         | none => applyVisSteps s0.visibility data) := by
  unfold loadParsed restOfLoad
  dsimp only
  repeat' split <;> try rfl

theorem loadParsed_visibility_noAbort (s0 : JState) (data : JVal)
    (hab : loadAborts data = false) :
    (loadParsed s0 data).visibility = applyVisSteps s0.visibility data := by
  rw [loadParsed_visibility]
  unfold loadAborts at hab
  cases hct : getProp data ("customTrackers") with
  | none => rfl
  | some ct =>
    rw [hct] at hab
    dsimp only at hab ⊢
    by_cases htr : truthy ct = true
    · rw [htr] at hab
      simp only [Bool.true_and, Bool.not_eq_false'] at hab
      simp only [htr, if_true]
      cases ct <;> simp_all [isArr]
    · have hf : truthy ct = false := by
        cases h : truthy ct
        · rfl
        · exact absurd h htr
      simp [hf]

/-- Claim C7 counterexample: a paused mid-run state whose one-minute chime
has already fired round-trips to a state whose chime flag is cleared — the
milestone-fired flags (not a live timer handle) are not persisted, so the
claim's "equivalent for all fields except the timer handle" fails. -/
theorem saveLoad_counterexample :
    ({ initialState with
       timer := { initialState.timer with
                  minutes := 0, seconds := 45,
                  oneMinuteChimePlayed := true } } : AppState).timer.oneMinuteChimePlayed
      = true ∧
    (loadState initialJState
        (.parsed (saveStateData
          { initialState with
            timer := { initialState.timer with
                       minutes := 0, seconds := 45,
                       oneMinuteChimePlayed := true } }))).oneMinuteChimePlayed = false := by
  exact ⟨rfl, rfl⟩

/-- Claim C7 (amended): for every state satisfying the invariants every
reachable state has (the three fixed visibility keys present, no obsolete
timer/custom keys, a nonzero next id), save followed by load reproduces
every persisted field — timer position and configured duration, the three
point pools, the custom list, the next id and the visibility map — while
the running flag, both milestone-fired flags and the alarm state are not
persisted and come back as the fresh-page defaults. -/
theorem saveLoad_roundtrip (s : AppState)
    (hn : ¬(s.nextTrackerId = 0))
    (hlib : ¬(jsLookup s.visibility ("librarian") = none))
    (hcan : ¬(jsLookup s.visibility ("cannon") = none))
    (hcmd : ¬(jsLookup s.visibility ("command") = none))
    (htmr : jsLookup s.visibility ("timer") = none)
    (hcus : jsLookup s.visibility ("custom") = none) :
    (loadState initialJState (.parsed (saveStateData s))).timerMinutes
        = .jnum s.timer.minutes ∧
    (loadState initialJState (.parsed (saveStateData s))).timerSeconds
        = .jnum s.timer.seconds ∧
    (loadState initialJState (.parsed (saveStateData s))).timerDefaultMinutes
        = .jnum s.timer.defaultMinutes ∧
    (loadState initialJState (.parsed (saveStateData s))).psychicPoints
        = .jnum s.psychicPoints ∧
    (loadState initialJState (.parsed (saveStateData s))).cannonPoints
        = .jnum s.cannonPoints ∧
    (loadState initialJState (.parsed (saveStateData s))).commandPoints
        = .jnum s.commandPoints ∧
    (loadState initialJState (.parsed (saveStateData s))).customTrackers
        = .jarr (s.customTrackers.map encodeTracker) ∧
    (loadState initialJState (.parsed (saveStateData s))).nextTrackerId
        = .jnum s.nextTrackerId ∧
    (∀ k, jsLookup (loadState initialJState (.parsed (saveStateData s))).visibility k
        = (jsLookup s.visibility k).map JVal.jbool) ∧
    (loadState initialJState (.parsed (saveStateData s))).isRunning = false ∧
    (loadState initialJState (.parsed (saveStateData s))).oneMinuteChimePlayed = false ∧
    (loadState initialJState (.parsed (saveStateData s))).thirtySecondChimePlayed = false ∧
    (loadState initialJState (.parsed (saveStateData s))).alarmRunning = false := by
  refine ⟨rfl, rfl, rfl, rfl, rfl, rfl, rfl, ?_, ?_, rfl, rfl, rfl, rfl⟩
  · have h1 : (loadState initialJState (.parsed (saveStateData s))).nextTrackerId
        = jsOrDefault (some (.jnum s.nextTrackerId)) (.jnum 1) := rfl
    rw [h1]
    simp [jsOrDefault, truthy, hn]
  · intro k
    have hv : (loadState initialJState (.parsed (saveStateData s))).visibility
        = jsDeleteKey (jsDeleteKey (mergeProps initialJState.visibility
            (s.visibility.map (fun p => (p.1, JVal.jbool p.2)))) ("timer")) ("custom") := rfl
    rw [hv]
    by_cases hk2 : k = "custom"
    · rw [hk2, jsLookup_deleteKey_self, hcus]
      rfl
    · rw [jsLookup_deleteKey_ne _ _ _ hk2]
      by_cases hk1 : k = "timer"
      · rw [hk1, jsLookup_deleteKey_self, htmr]
        rfl
      · rw [jsLookup_deleteKey_ne _ _ _ hk1,
            jsLookup_merge initialJState.visibility
              (s.visibility.map (fun p => (p.1, JVal.jbool p.2))) k,
            jsLookup_mapVal JVal.jbool s.visibility k]
        cases hsk : jsLookup s.visibility k with
        | some b => rfl
        | none =>
          by_cases h3 : k = "librarian"
          · rw [h3] at hsk; exact absurd hsk hlib
          by_cases h4 : k = "cannon"
          · rw [h4] at hsk; exact absurd hsk hcan
          by_cases h5 : k = "command"
          · rw [h5] at hsk; exact absurd hsk hcmd
          have g3 : ¬("librarian" = k) := fun he => h3 he.symm
          have g4 : ¬("cannon" = k) := fun he => h4 he.symm
          have g5 : ¬("command" = k) := fun he => h5 he.symm
          simp [initialJState, jsLookup, g3, g4, g5]

/-- Witness for the amended C7 at the fresh initial state. -/
theorem saveLoad_roundtrip_witness :
    (¬(initialState.nextTrackerId = 0) ∧
     ¬(jsLookup initialState.visibility ("librarian") = none) ∧
     ¬(jsLookup initialState.visibility ("cannon") = none) ∧
     ¬(jsLookup initialState.visibility ("command") = none) ∧
     jsLookup initialState.visibility ("timer") = none ∧
     jsLookup initialState.visibility ("custom") = none) ∧
    ((loadState initialJState (.parsed (saveStateData initialState))).timerMinutes
        = .jnum initialState.timer.minutes ∧
     (loadState initialJState (.parsed (saveStateData initialState))).timerSeconds
        = .jnum initialState.timer.seconds ∧
     (loadState initialJState (.parsed (saveStateData initialState))).timerDefaultMinutes
        = .jnum initialState.timer.defaultMinutes ∧
     (loadState initialJState (.parsed (saveStateData initialState))).psychicPoints
        = .jnum initialState.psychicPoints ∧
     (loadState initialJState (.parsed (saveStateData initialState))).cannonPoints
        = .jnum initialState.cannonPoints ∧
     (loadState initialJState (.parsed (saveStateData initialState))).commandPoints
        = .jnum initialState.commandPoints ∧
     (loadState initialJState (.parsed (saveStateData initialState))).customTrackers
        = .jarr (initialState.customTrackers.map encodeTracker) ∧
     (loadState initialJState (.parsed (saveStateData initialState))).nextTrackerId
        = .jnum initialState.nextTrackerId ∧
     (∀ k, jsLookup
            (loadState initialJState (.parsed (saveStateData initialState))).visibility k
        = (jsLookup initialState.visibility k).map JVal.jbool) ∧
     (loadState initialJState (.parsed (saveStateData initialState))).isRunning = false ∧
     (loadState initialJState
         (.parsed (saveStateData initialState))).oneMinuteChimePlayed = false ∧
     (loadState initialJState
         (.parsed (saveStateData initialState))).thirtySecondChimePlayed = false ∧
     (loadState initialJState (.parsed (saveStateData initialState))).alarmRunning = false) :=
  ⟨⟨by decide, fun h => Option.noConfusion h, fun h => Option.noConfusion h,
    fun h => Option.noConfusion h, rfl, rfl⟩,
   saveLoad_roundtrip initialState (by decide) (fun h => Option.noConfusion h)
     (fun h => Option.noConfusion h) (fun h => Option.noConfusion h) rfl rfl⟩

theorem loadState_parsed (s : JState) (data : JVal) :
    loadState s (.parsed data) = loadParsed s data := rfl

theorem nullishDefault_some (v d : JVal) (h : ¬(v = JVal.jnull)) :
    nullishDefault (some v) d = v := by
  cases v <;> first | exact absurd rfl h | rfl

/-- Claim C8 counterexample: a parseable snapshot whose psychicPoints field
is the string value x is loaded with that string stored as-is — the
hardcoded default 20 is not substituted for the wrong-typed field, because
the nullish coalescing only replaces missing and null values. -/
theorem loadState_wrongType_counterexample :
    (loadState initialJState
        (.parsed (.jobj [("psychicPoints", .jstr ("x"))]))).psychicPoints = .jstr ("x") ∧
    ¬((loadState initialJState
        (.parsed (.jobj [("psychicPoints", .jstr ("x"))]))).psychicPoints = .jnum 20) := by
  refine ⟨rfl, ?_⟩
  intro h
  exact JVal.noConfusion h

/-- Claim C8 (amended): loading absent storage or malformed JSON leaves the
fresh-page defaults (clock 3 minutes, psychic 20, cannon 10, command 0, no
custom counters, all visible) without any error; and for the recognized
scalar fields of a parseable snapshot the hardcoded default is substituted
exactly when the field is missing or null — a present field of the wrong
type is stored as-is rather than replaced by the default. -/
theorem loadState_defaults_semantics :
    (loadState initialJState .absent = initialJState ∧
     loadState initialJState .malformed = initialJState ∧
     initialJState.timerMinutes = .jnum 3 ∧ initialJState.timerSeconds = .jnum 0 ∧
     initialJState.psychicPoints = .jnum 20 ∧ initialJState.cannonPoints = .jnum 10 ∧
     initialJState.commandPoints = .jnum 0 ∧ initialJState.customTrackers = .jarr [] ∧
     jsLookup initialJState.visibility ("librarian") = some (.jbool true) ∧
     jsLookup initialJState.visibility ("cannon") = some (.jbool true) ∧
     jsLookup initialJState.visibility ("command") = some (.jbool true)) ∧
    (∀ data : JVal,
       ((getProp data ("psychicPoints") = none ∨
           getProp data ("psychicPoints") = some .jnull) →
          (loadParsed initialJState data).psychicPoints = .jnum 20) ∧
       (∀ v, getProp data ("psychicPoints") = some v → ¬(v = .jnull) →
          (loadParsed initialJState data).psychicPoints = v) ∧
       ((getProp data ("cannonPoints") = none ∨
           getProp data ("cannonPoints") = some .jnull) →
          (loadParsed initialJState data).cannonPoints = .jnum 10) ∧
       (∀ v, getProp data ("cannonPoints") = some v → ¬(v = .jnull) →
          (loadParsed initialJState data).cannonPoints = v) ∧
       ((getProp data ("commandPoints") = none ∨
           getProp data ("commandPoints") = some .jnull) →
          (loadParsed initialJState data).commandPoints = .jnum 0) ∧
       (∀ v, getProp data ("commandPoints") = some v → ¬(v = .jnull) →
          (loadParsed initialJState data).commandPoints = v) ∧
       (∀ t, getProp data ("timer") = some t → truthy t = true →
          ((getProp t ("minutes") = none ∨ getProp t ("minutes") = some .jnull) →
             (loadParsed initialJState data).timerMinutes = .jnum 3) ∧
          (∀ v, getProp t ("minutes") = some v → ¬(v = .jnull) →
             (loadParsed initialJState data).timerMinutes = v))) := by
  refine ⟨⟨rfl, rfl, rfl, rfl, rfl, rfl, rfl, rfl, rfl, rfl, rfl⟩, ?_⟩
  intro data
  refine ⟨?_, ?_, ?_, ?_, ?_, ?_, ?_⟩
  · intro h
    rw [loadParsed_psychicPoints]
    rcases h with h | h <;> rw [h] <;> rfl
  · intro v hv hn
    rw [loadParsed_psychicPoints, hv]
    exact nullishDefault_some v _ hn
  · intro h
    rw [loadParsed_cannonPoints]
    rcases h with h | h <;> rw [h] <;> rfl
  · intro v hv hn
    rw [loadParsed_cannonPoints, hv]
    exact nullishDefault_some v _ hn
  · intro h
    rw [loadParsed_commandPoints]
    rcases h with h | h <;> rw [h] <;> rfl
  · intro v hv hn
    rw [loadParsed_commandPoints, hv]
    exact nullishDefault_some v _ hn
  · intro t ht httr
    constructor
    · intro h
      rw [loadParsed_timerMinutes, ht]
      dsimp only
      rw [httr]
      rcases h with h | h <;> rw [h] <;> rfl
    · intro v hv hn
      rw [loadParsed_timerMinutes, ht]
      dsimp only
      rw [httr, hv]
      simp only [if_true]
      exact nullishDefault_some v _ hn

/-- Witness for the amended C8 at a concrete snapshot with a null field, a
wrong-typed field and a timer object missing its minutes. -/
theorem loadState_defaults_witness :
    (loadParsed initialJState
        (.jobj [("psychicPoints", .jnull), ("cannonPoints", .jstr ("x")),
                ("timer", .jobj [])])).psychicPoints = .jnum 20 ∧
    (loadParsed initialJState
        (.jobj [("psychicPoints", .jnull), ("cannonPoints", .jstr ("x")),
                ("timer", .jobj [])])).cannonPoints = .jstr ("x") ∧
    (loadParsed initialJState
        (.jobj [("psychicPoints", .jnull), ("cannonPoints", .jstr ("x")),
                ("timer", .jobj [])])).timerMinutes = .jnum 3 :=
  ⟨(loadState_defaults_semantics.2
      (.jobj [("psychicPoints", .jnull), ("cannonPoints", .jstr ("x")),
              ("timer", .jobj [])])).1 (Or.inr rfl),
   (loadState_defaults_semantics.2
      (.jobj [("psychicPoints", .jnull), ("cannonPoints", .jstr ("x")),
              ("timer", .jobj [])])).2.2.2.1 (.jstr ("x")) rfl (fun h => JVal.noConfusion h),
   ((loadState_defaults_semantics.2
      (.jobj [("psychicPoints", .jnull), ("cannonPoints", .jstr ("x")),
              ("timer", .jobj [])])).2.2.2.2.2.2 (.jobj []) rfl rfl).1 (Or.inl rfl)⟩

theorem getProp_removeProp_ne (j : JVal) (k k' : String) (h : ¬(k' = k)) :
    getProp (removeProp j k) k' = getProp j k' := by
  cases j with
  | jobj l => exact jsLookup_deleteKey_ne l k k' h
  | jnull => rfl
  | jbool b => rfl
  | jnum n => rfl
  | jstr s => rfl
  | jarr a => rfl

theorem applyVisSteps_removeLegacy (v : List (String × JVal)) (data m : JVal)
    (hvis : getProp data ("visibility") = some m) :
    applyVisSteps v (removeProp data ("showLibrarian")) = applyVisSteps v data := by
  unfold applyVisSteps
  rw [getProp_removeProp_ne data ("showLibrarian") ("visibility") (by decide), hvis]
  simp

/-- Claim C9: a snapshot carrying the legacy boolean showLibrarian and no
visibility field seeds the loaded visibility map's librarian entry from
that boolean while the other known counters stay visible (and no other key
appears); whenever the visibility field is present in the snapshot, the
legacy field is ignored — loading is unchanged by deleting it. -/
theorem loadState_legacy_semantics :
    (∀ (data : JVal) (b : Bool),
       getProp data ("showLibrarian") = some (.jbool b) →
       getProp data ("visibility") = none →
       loadAborts data = false →
       jsLookup (loadParsed initialJState data).visibility ("librarian")
           = some (.jbool b) ∧
       jsLookup (loadParsed initialJState data).visibility ("cannon")
           = some (.jbool true) ∧
       jsLookup (loadParsed initialJState data).visibility ("command")
           = some (.jbool true) ∧
       (∀ k, ¬(k = "librarian") → ¬(k = "cannon") → ¬(k = "command") →
          jsLookup (loadParsed initialJState data).visibility k = none)) ∧
    (∀ (data m : JVal),
       getProp data ("visibility") = some m →
       loadParsed initialJState (removeProp data ("showLibrarian"))
         = loadParsed initialJState data) := by
  constructor
  · intro data b hleg hvis hab
    have hv := loadParsed_visibility_noAbort initialJState data hab
    rw [hv]
    unfold applyVisSteps
    rw [hvis, hleg]
    refine ⟨rfl, rfl, rfl, ?_⟩
    intro k h3 h4 h5
    have g3 : ¬("librarian" = k) := fun he => h3 he.symm
    have g4 : ¬("cannon" = k) := fun he => h4 he.symm
    have g5 : ¬("command" = k) := fun he => h5 he.symm
    show jsLookup [("librarian", JVal.jbool b), ("cannon", JVal.jbool true),
                   ("command", JVal.jbool true)] k = none
    simp [jsLookup, g3, g4, g5]
  · intro data m hvis
    have ht := getProp_removeProp_ne data ("showLibrarian") ("timer") (by decide)
    have hp := getProp_removeProp_ne data ("showLibrarian") ("psychicPoints") (by decide)
    have hc := getProp_removeProp_ne data ("showLibrarian") ("cannonPoints") (by decide)
    have hcm := getProp_removeProp_ne data ("showLibrarian") ("commandPoints") (by decide)
    have hcu := getProp_removeProp_ne data ("showLibrarian") ("customTrackers") (by decide)
    have hni := getProp_removeProp_ne data ("showLibrarian") ("nextTrackerId") (by decide)
    have hmerge := applyVisSteps_removeLegacy initialJState.visibility data m hvis
    ext
    · rw [loadParsed_timerMinutes, loadParsed_timerMinutes, ht]
    · rw [loadParsed_timerSeconds, loadParsed_timerSeconds, ht]
    · rw [loadParsed_timerDefaultMinutes, loadParsed_timerDefaultMinutes, ht]
    · rw [(loadParsed_untouched initialJState (removeProp data ("showLibrarian"))).1,
          (loadParsed_untouched initialJState data).1]
    · rw [(loadParsed_untouched initialJState (removeProp data ("showLibrarian"))).2.1,
          (loadParsed_untouched initialJState data).2.1]
    · rw [(loadParsed_untouched initialJState (removeProp data ("showLibrarian"))).2.2.1,
          (loadParsed_untouched initialJState data).2.2.1]
    · rw [(loadParsed_untouched initialJState (removeProp data ("showLibrarian"))).2.2.2,
          (loadParsed_untouched initialJState data).2.2.2]
    · rw [loadParsed_psychicPoints, loadParsed_psychicPoints, hp]
    · rw [loadParsed_cannonPoints, loadParsed_cannonPoints, hc]
    · rw [loadParsed_commandPoints, loadParsed_commandPoints, hcm]
    · rw [loadParsed_customTrackers, loadParsed_customTrackers, hcu]
    · rw [loadParsed_nextTrackerId, loadParsed_nextTrackerId, hcu, hni]
    · rw [loadParsed_visibility, loadParsed_visibility, hcu, hmerge]

/-- Witness for C9: the canonical legacy snapshot containing only
showLibrarian = false, and a snapshot with both fields where deleting the
legacy one changes nothing. -/
theorem loadState_legacy_witness :
    (jsLookup (loadParsed initialJState
        (.jobj [("showLibrarian", .jbool false)])).visibility ("librarian")
        = some (.jbool false) ∧
     jsLookup (loadParsed initialJState
        (.jobj [("showLibrarian", .jbool false)])).visibility ("cannon")
        = some (.jbool true) ∧
     jsLookup (loadParsed initialJState
        (.jobj [("showLibrarian", .jbool false)])).visibility ("command")
        = some (.jbool true) ∧
     (∀ k, ¬(k = "librarian") → ¬(k = "cannon") → ¬(k = "command") →
        jsLookup (loadParsed initialJState
          (.jobj [("showLibrarian", .jbool false)])).visibility k = none)) ∧
    (loadParsed initialJState
        (removeProp (.jobj [("visibility", .jobj []), ("showLibrarian", .jbool true)])
          ("showLibrarian"))
      = loadParsed initialJState
          (.jobj [("visibility", .jobj []), ("showLibrarian", .jbool true)])) :=
  ⟨loadState_legacy_semantics.1 (.jobj [("showLibrarian", .jbool false)]) false rfl rfl rfl,
   loadState_legacy_semantics.2
     (.jobj [("visibility", .jobj []), ("showLibrarian", .jbool true)]) (.jobj []) rfl⟩

/-- Claim C10 counterexample: a snapshot with an empty custom list whose
visibility map carries the stale keys custom-5 (no such tracker) and
foobar (no such counter) loads with both keys retained — they are not
dropped, contradicting the claimed pruning of every unknown key. -/
theorem loadState_stale_counterexample :
    (loadParsed initialJState
        (.jobj [("customTrackers", .jarr []),
                ("visibility", .jobj [("custom-5", .jbool false),
                                      ("foobar", .jbool true)])])).customTrackers
        = .jarr [] ∧
    jsLookup (loadParsed initialJState
        (.jobj [("customTrackers", .jarr []),
                ("visibility", .jobj [("custom-5", .jbool false),
                                      ("foobar", .jbool true)])])).visibility ("custom-5")
        = some (.jbool false) ∧
    jsLookup (loadParsed initialJState
        (.jobj [("customTrackers", .jarr []),
                ("visibility", .jobj [("custom-5", .jbool false),
                                      ("foobar", .jbool true)])])).visibility ("foobar")
        = some (.jbool true) := by
  exact ⟨rfl, rfl, rfl⟩

/-- Claim C10 (amended): load drops exactly the two obsolete visibility
keys timer and custom (left over from the version where the timer and the
generic custom section were hideable); every other key of the snapshot's
visibility map — including stale keys that name no existing counter — is
retained with its stored value. -/
theorem loadState_prune_semantics (data : JVal) (m : List (String × JVal))
    (hvis : getProp data ("visibility") = some (.jobj m))
    (hab : loadAborts data = false) :
    jsLookup (loadParsed initialJState data).visibility ("timer") = none ∧
    jsLookup (loadParsed initialJState data).visibility ("custom") = none ∧
    (∀ k v, ¬(k = "timer") → ¬(k = "custom") → jsLookup m k = some v →
       jsLookup (loadParsed initialJState data).visibility k = some v) := by
  have hv := loadParsed_visibility_noAbort initialJState data hab
  rw [hv]
  unfold applyVisSteps
  rw [hvis]
  simp only [Option.isNone_some, Bool.and_false, Bool.false_eq_true, if_false]
  refine ⟨?_, ?_, ?_⟩
  · rw [jsLookup_deleteKey_ne _ _ _ (by decide), jsLookup_deleteKey_self]
  · rw [jsLookup_deleteKey_self]
  · intro k v hk1 hk2 hkv
    rw [jsLookup_deleteKey_ne _ _ _ hk2, jsLookup_deleteKey_ne _ _ _ hk1]
    rw [show (if truthy (JVal.jobj m) = true
              then mergeProps initialJState.visibility (spreadProps (JVal.jobj m))
              else initialJState.visibility)
           = mergeProps initialJState.visibility m from rfl]
    rw [jsLookup_merge initialJState.visibility m k, hkv]

/-- Witness for the amended C10 at a snapshot whose visibility map holds a
stale key and an obsolete timer key. -/
theorem loadState_prune_witness :
    jsLookup (loadParsed initialJState
        (.jobj [("visibility", .jobj [("stale", .jbool false),
                                      ("timer", .jbool true)])])).visibility ("timer")
        = none ∧
    jsLookup (loadParsed initialJState
        (.jobj [("visibility", .jobj [("stale", .jbool false),
                                      ("timer", .jbool true)])])).visibility ("custom")
        = none ∧
    (∀ k v, ¬(k = "timer") → ¬(k = "custom") →
       jsLookup [("stale", JVal.jbool false), ("timer", JVal.jbool true)] k = some v →
       jsLookup (loadParsed initialJState
          (.jobj [("visibility", .jobj [("stale", .jbool false),
                                        ("timer", .jbool true)])])).visibility k = some v) :=
  loadState_prune_semantics
    (.jobj [("visibility", .jobj [("stale", .jbool false), ("timer", .jbool true)])])
    [("stale", .jbool false), ("timer", .jbool true)] rfl rfl
